import Mathlib

/-!
Verification of the atomics-and-locks library: a panic-on-misuse one-shot
channel, an Arc-based one-shot channel, a borrow-scoped one-shot channel,
a reference-counted shared pointer, and a spin lock.

The Rust code is embedded shallowly: each atomic field becomes a field of a
plain state structure, each operation becomes a pure function on that state
(fallible operations return Except, with a panic of the source modelled as
an error value), and sequential executions become runs over lists of
operations.
-/

set_option autoImplicit false

namespace AtomicsAndLocks

/-! ### Panic-on-misuse one-shot channel

Embeds OneShotChannelWithPanic from src/channel/src/main.rs: a message slot
(MaybeUninit modelled as Option), an in_use flag and a ready flag.
-/

/-- State of a OneShotChannelWithPanic: the two atomic flags plus the
message slot; an uninitialized MaybeUninit slot is modelled as none. -/
structure PState (T : Type) where
  in_use : Bool
  ready : Bool
  slot : Option T
deriving DecidableEq, Repr

/-- Errors of the channel operations. A Rust panic aborts the execution, so
it is modelled as an error value that stops a run; uninitRead marks the
undefined behaviour of assume_init_read on an uninitialized slot. -/
inductive ChanErr where
  | usedMoreThanOnce
  | noMessageAvailable
  | uninitRead
  | blockedForever
deriving DecidableEq, Repr

variable {T : Type}

/-- OneShotChannelWithPanic::new — empty slot, both flags false. -/
def OneShotChannelWithPanic.new (T : Type) : PState T :=
  { in_use := false, ready := false, slot := none }

/-- OneShotChannelWithPanic::send — swap in_use to true; if it was already
true, panic; otherwise write the message and set ready. -/
def OneShotChannelWithPanic.send (s : PState T) (m : T) : Except ChanErr (PState T) :=
  if s.in_use then
    .error .usedMoreThanOnce
  else
    .ok { in_use := true, ready := true, slot := some m }

/-- OneShotChannelWithPanic::is_ready — load of the ready flag. -/
def OneShotChannelWithPanic.is_ready (s : PState T) : Bool :=
  s.ready

/-- OneShotChannelWithPanic::receive — swap ready to false; if it was
false, panic; otherwise read the message out of the slot (the slot bytes
are not erased by assume_init_read, so the slot field is unchanged). -/
def OneShotChannelWithPanic.receive (s : PState T) : Except ChanErr (T × PState T) :=
  if s.ready then
    match s.slot with
    | some m => .ok (m, { s with ready := false })
    | none => .error .uninitRead
  else
    .error .noMessageAvailable

/-- Drop for OneShotChannelWithPanic — the list of messages finalized by
the destructor: if ready is still true the slot content is dropped,
otherwise nothing is finalized. -/
def OneShotChannelWithPanic.dropFinalized (s : PState T) : List T :=
  if s.ready then s.slot.toList else []

/-! ### Sequential runs of channel operations -/

/-- An operation on a one-shot channel (is_ready is a pure observation and
does not appear in runs). -/
inductive POp (T : Type) where
  | send (m : T)
  | receive
deriving DecidableEq, Repr

/-- Run a list of operations on a OneShotChannelWithPanic; a panic stops
the run with its error. -/
def prun : PState T → List (POp T) → Except ChanErr (PState T)
  | s, [] => .ok s
  | s, POp.send m :: ops =>
    match OneShotChannelWithPanic.send s m with
    | .ok s' => prun s' ops
    | .error e => .error e
  | s, POp.receive :: ops =>
    match OneShotChannelWithPanic.receive s with
    | .ok (_, s') => prun s' ops
    | .error e => .error e

/-- Number of send operations in a run. -/
def sendCount : List (POp T) → Nat
  | [] => 0
  | POp.send _ :: ops => sendCount ops + 1
  | POp.receive :: ops => sendCount ops

/-- Number of receive operations in a run. -/
def recvCount : List (POp T) → Nat
  | [] => 0
  | POp.send _ :: ops => recvCount ops
  | POp.receive :: ops => recvCount ops + 1

/-- The message of the first send of a run, if any. -/
def firstSent : List (POp T) → Option T
  | [] => none
  | POp.send m :: _ => some m
  | POp.receive :: ops => firstSent ops

/-! ### Reachability lemmas for the panic variant

A successful run from the fresh state goes through at most three phases:
fresh, sent, consumed. The three lemmas below characterize the successful
runs starting in each phase.
-/

lemma prun_consumed (sl : Option T) :
    ∀ (ops : List (POp T)) (s : PState T),
      prun { in_use := true, ready := false, slot := sl } ops = .ok s →
      ops = [] ∧ s = { in_use := true, ready := false, slot := sl } := by
  intro ops s h
  cases ops with
  | nil =>
    simp [prun] at h
    exact ⟨rfl, h.symm⟩
  | cons op ops =>
    cases op with
    | send m =>
      simp [prun, OneShotChannelWithPanic.send] at h
    | receive =>
      simp [prun, OneShotChannelWithPanic.receive] at h

lemma prun_sent (m : T) :
    ∀ (ops : List (POp T)) (s : PState T),
      prun { in_use := true, ready := true, slot := some m } ops = .ok s →
      sendCount ops = 0 ∧
      ((recvCount ops = 0 ∧ s = { in_use := true, ready := true, slot := some m }) ∨
       (recvCount ops = 1 ∧ s = { in_use := true, ready := false, slot := some m })) := by
  intro ops s h
  cases ops with
  | nil =>
    simp [prun] at h
    exact ⟨rfl, Or.inl ⟨rfl, h.symm⟩⟩
  | cons op ops =>
    cases op with
    | send m' =>
      simp [prun, OneShotChannelWithPanic.send] at h
    | receive =>
      simp only [prun, OneShotChannelWithPanic.receive, if_pos] at h
      obtain ⟨hnil, hs⟩ := prun_consumed (some m) ops s h
      subst hnil
      exact ⟨rfl, Or.inr ⟨rfl, hs⟩⟩

lemma prun_fresh :
    ∀ (ops : List (POp T)) (s : PState T),
      prun (OneShotChannelWithPanic.new T) ops = .ok s →
      (sendCount ops = 0 ∧ recvCount ops = 0 ∧ s = OneShotChannelWithPanic.new T) ∨
      (∃ m, firstSent ops = some m ∧ sendCount ops = 1 ∧
        ((recvCount ops = 0 ∧ s = { in_use := true, ready := true, slot := some m }) ∨
         (recvCount ops = 1 ∧ s = { in_use := true, ready := false, slot := some m }))) := by
  intro ops s h
  cases ops with
  | nil =>
    simp [prun] at h
    exact Or.inl ⟨rfl, rfl, h.symm⟩
  | cons op ops =>
    cases op with
    | send m =>
      simp only [prun, OneShotChannelWithPanic.new, OneShotChannelWithPanic.send] at h
      norm_num at h
      obtain ⟨hzero, hrest⟩ := prun_sent m ops s h
      refine Or.inr ⟨m, rfl, ?_, hrest⟩
      simp [sendCount, hzero]
    | receive =>
      simp [prun, OneShotChannelWithPanic.new, OneShotChannelWithPanic.receive] at h

/-! ### Arc-based one-shot channel

Embeds OneShotChannelWithArc, SenderWithArc and ReceiverWithArc. The
shared heap block holds a slot and a ready flag; the sender and receiver
capabilities are consumed by send/receive, so a sequential history contains
each of them at most once — runs over this variant therefore carry that
capability discipline as a hypothesis.
-/

/-- State of the shared OneShotChannelWithArc block: ready flag plus the
message slot. -/
structure AState (T : Type) where
  ready : Bool
  slot : Option T
deriving DecidableEq, Repr

/-- OneShotChannelWithArc::channel — the fresh shared block. -/
def OneShotChannelWithArc.channel (T : Type) : AState T :=
  { ready := false, slot := none }

/-- SenderWithArc::send — writes the message, then sets ready; there is no
flag check, double send is prevented by consuming the sender. -/
def SenderWithArc.send (_s : AState T) (m : T) : AState T :=
  { ready := true, slot := some m }

/-- ReceiverWithArc::is_ready — load of the ready flag. -/
def ReceiverWithArc.is_ready (s : AState T) : Bool :=
  s.ready

/-- ReceiverWithArc::receive — swap ready to false; panic if it was false,
otherwise read the message out of the slot. -/
def ReceiverWithArc.receive (s : AState T) : Except ChanErr (T × AState T) :=
  if s.ready then
    match s.slot with
    | some m => .ok (m, { s with ready := false })
    | none => .error .uninitRead
  else
    .error .noMessageAvailable

/-- Drop for OneShotChannelWithArc — messages finalized by the destructor
of the shared block. -/
def OneShotChannelWithArc.dropFinalized (s : AState T) : List T :=
  if s.ready then s.slot.toList else []

/-- Run a list of operations on the Arc-based channel. The capability
discipline (each of sender and receiver used at most once) is not encoded
here; theorems about arun assume it. -/
def arun : AState T → List (POp T) → Except ChanErr (AState T)
  | s, [] => .ok s
  | s, POp.send m :: ops => arun (SenderWithArc.send s m) ops
  | s, POp.receive :: ops =>
    match ReceiverWithArc.receive s with
    | .ok (_, s') => arun s' ops
    | .error e => .error e

lemma arun_consumed (sl : Option T) :
    ∀ (ops : List (POp T)) (s : AState T),
      sendCount ops = 0 →
      arun { ready := false, slot := sl } ops = .ok s →
      recvCount ops = 0 ∧ s = { ready := false, slot := sl } := by
  intro ops s hsc h
  cases ops with
  | nil =>
    simp [arun] at h
    exact ⟨rfl, h.symm⟩
  | cons op ops =>
    cases op with
    | send m => simp [sendCount] at hsc
    | receive => simp [arun, ReceiverWithArc.receive] at h

lemma arun_sent (m : T) :
    ∀ (ops : List (POp T)) (s : AState T),
      sendCount ops = 0 → recvCount ops ≤ 1 →
      arun { ready := true, slot := some m } ops = .ok s →
      (recvCount ops = 0 ∧ s = { ready := true, slot := some m }) ∨
      (recvCount ops = 1 ∧ s = { ready := false, slot := some m }) := by
  intro ops s hsc hrc h
  cases ops with
  | nil =>
    simp [arun] at h
    exact Or.inl ⟨rfl, h.symm⟩
  | cons op ops =>
    cases op with
    | send m' => simp [sendCount] at hsc
    | receive =>
      simp only [arun, ReceiverWithArc.receive, if_pos] at h
      simp only [sendCount] at hsc
      obtain ⟨hr, hs⟩ := arun_consumed (some m) ops s hsc h
      exact Or.inr ⟨by simp [recvCount, hr], hs⟩

lemma arun_fresh :
    ∀ (ops : List (POp T)) (s : AState T),
      sendCount ops ≤ 1 → recvCount ops ≤ 1 →
      arun (OneShotChannelWithArc.channel T) ops = .ok s →
      (sendCount ops = 0 ∧ recvCount ops = 0 ∧ s = OneShotChannelWithArc.channel T) ∨
      (∃ m, firstSent ops = some m ∧ sendCount ops = 1 ∧
        ((recvCount ops = 0 ∧ s = { ready := true, slot := some m }) ∨
         (recvCount ops = 1 ∧ s = { ready := false, slot := some m }))) := by
  intro ops s hsc hrc h
  cases ops with
  | nil =>
    simp [arun] at h
    exact Or.inl ⟨rfl, rfl, h.symm⟩
  | cons op ops =>
    cases op with
    | send m =>
      simp only [arun, OneShotChannelWithArc.channel, SenderWithArc.send] at h
      simp only [sendCount] at hsc
      simp only [recvCount] at hrc
      obtain hrest := arun_sent m ops s (by omega) hrc h
      exact Or.inr ⟨m, rfl, by simp [sendCount]; omega, hrest⟩
    | receive =>
      simp [arun, OneShotChannelWithArc.channel, ReceiverWithArc.receive] at h

/-! ### Borrow-scoped one-shot channel

Embeds OneShotChannelWithBorrows, SenderWithBorrows and
ReceiverWithBorrows. The receiver's receive swaps the ready flag once; if
the flag was not set it parks and, after the park returns, reads the slot
WITHOUT re-checking the flag. The state of the channel at the moment the
park call returns is an input of the embedding, since a wake may be
spurious or come early.
-/

/-- State of a OneShotChannelWithBorrows: ready flag plus message slot. -/
structure BState (T : Type) where
  ready : Bool
  slot : Option T
deriving DecidableEq, Repr

/-- OneShotChannelWithBorrows::new — empty slot, ready false. -/
def OneShotChannelWithBorrows.new (T : Type) : BState T :=
  { ready := false, slot := none }

/-- Drop for OneShotChannelWithBorrows — messages finalized by the
destructor. -/
def OneShotChannelWithBorrows.dropFinalized (s : BState T) : List T :=
  if s.ready then s.slot.toList else []

/-- OneShotChannelWithBorrows::split — overwrites the channel with a fresh
one (dropping the previous value, which may finalize an unread message) and
hands out the sender/receiver pair borrowing it. The first component is
the list of messages finalized by that drop, the second the state the
borrowed channel has when split returns. -/
def OneShotChannelWithBorrows.split (s : BState T) : List T × BState T :=
  (OneShotChannelWithBorrows.dropFinalized s, OneShotChannelWithBorrows.new T)

/-- SenderWithBorrows::send — writes the message, sets ready, then unparks
the receiving thread. -/
def SenderWithBorrows.send (_s : BState T) (m : T) : BState T :=
  { ready := true, slot := some m }

/-- ReceiverWithBorrows::is_ready — load of the ready flag. -/
def ReceiverWithBorrows.is_ready (s : BState T) : Bool :=
  s.ready

/-- Outcome of a borrow-scoped receive: either a message was moved out, or
assume_init_read was executed on an uninitialized slot (undefined
behaviour). -/
inductive RecvOut (T : Type) where
  | got (m : T)
  | uninitRead
deriving DecidableEq, Repr

/-- ReceiverWithBorrows::receive — swaps ready to false; if it was true the
slot is read immediately; if it was false the thread parks, and once the
park returns (sAtWake is the channel state at that moment; on a spurious or
early wake it can still be not ready) the slot is read with no further
check of the ready flag. -/
def ReceiverWithBorrows.receive (s : BState T) (sAtWake : BState T) :
    RecvOut T × BState T :=
  if s.ready then
    match s.slot with
    | some m => (RecvOut.got m, { s with ready := false })
    | none => (RecvOut.uninitRead, { s with ready := false })
  else
    match sAtWake.slot with
    | some m => (RecvOut.got m, sAtWake)
    | none => (RecvOut.uninitRead, sAtWake)

/-! ### Shared pointer (Arc)

Embeds Arc from src/arc/src/first.rs. The heap block ArcData holds an
atomic usize reference count and the data; the count lives in Nat with
wraparound at 2^64 made explicit where the source's fetch_add/fetch_sub
could wrap.
-/

/-- usize::MAX on a 64-bit target. -/
def usizeMax : Nat := 2 ^ 64 - 1

/-- The heap block behind an Arc: reference count and payload. -/
structure ArcData (T : Type) where
  ref_count : Nat
  data : T
deriving DecidableEq, Repr

/-- Abort of the whole process (std::process::abort). -/
inductive ArcErr where
  | aborted
  | noHandle
deriving DecidableEq, Repr

/-- Arc::new — a fresh block with reference count 1. -/
def Arc.new (v : T) : ArcData T :=
  { ref_count := 1, data := v }

/-- Arc::get_mut — a mutable view of the data exactly when the count reads
1; the returned view is modelled by the data it gives access to. -/
def Arc.get_mut (s : ArcData T) : Option T :=
  if s.ref_count = 1 then some s.data else none

/-- Arc::clone — fetch_add(1) on the count (wrapping at 2^64), then abort
if the value before the increment exceeded usize::MAX / 2; otherwise the
new handle shares the same block. -/
def Arc.clone (s : ArcData T) : Except ArcErr (ArcData T) :=
  let old := s.ref_count
  if old > usizeMax / 2 then
    .error .aborted
  else
    .ok { s with ref_count := (old + 1) % 2 ^ 64 }

/-- Drop for Arc — fetch_sub(1) on the count (wrapping at 2^64); when the
value before the decrement was 1 the block is deallocated (result none),
otherwise the block survives with the decremented count. -/
def Arc.dropHandle (s : ArcData T) : Option (ArcData T) :=
  if s.ref_count = 1 then none
  else some { s with ref_count := (s.ref_count + 2 ^ 64 - 1) % 2 ^ 64 }

/-- A handle-level operation on a shared block. -/
inductive HOp where
  | clone
  | dropHandle
deriving DecidableEq, Repr

/-- One step of a handle-level history: the abstract state is the block (or
none once deallocated) together with the number of live handles; every
operation is performed through a live handle, so a step with no live handle
is ill-formed. -/
def arcStep : Option (ArcData T) × Nat → HOp → Except ArcErr (Option (ArcData T) × Nat)
  | (none, _), _ => .error .noHandle
  | (some _, 0), _ => .error .noHandle
  | (some s, h + 1), HOp.clone =>
    match Arc.clone s with
    | .ok s' => .ok (some s', h + 2)
    | .error e => .error e
  | (some s, h + 1), HOp.dropHandle =>
    match Arc.dropHandle s with
    | some s' => .ok (some s', h)
    | none => .ok (none, h)

/-- Run a list of handle-level operations from a state. -/
def arcRun : Option (ArcData T) × Nat → List HOp → Except ArcErr (Option (ArcData T) × Nat)
  | st, [] => .ok st
  | st, op :: ops =>
    match arcStep st op with
    | .ok st' => arcRun st' ops
    | .error e => .error e

/-- Invariant of handle-level states: a live block's count equals the
number of live handles, which is positive and at most 2^63; a deallocated
block has no handles left. -/
def arcInv : Option (ArcData T) × Nat → Prop
  | (some s, h) => s.ref_count = h ∧ 1 ≤ h ∧ h ≤ 2 ^ 63
  | (none, h) => h = 0

lemma usizeMax_div_two : usizeMax / 2 = 2 ^ 63 - 1 := by
  norm_num [usizeMax]

lemma arcStep_inv {st st' : Option (ArcData T) × Nat} {op : HOp}
    (hinv : arcInv st) (h : arcStep st op = .ok st') : arcInv st' := by
  obtain ⟨so, hn⟩ := st
  cases so with
  | none => cases hn <;> simp [arcStep] at h
  | some s =>
    cases hn with
    | zero => cases op <;> simp [arcStep] at h
    | succ h0 =>
      obtain ⟨hc, h1, h2⟩ := hinv
      cases op with
      | clone =>
        by_cases hbig : usizeMax / 2 < s.ref_count
        · simp [arcStep, Arc.clone, hbig] at h
        · simp only [arcStep, Arc.clone, gt_iff_lt, if_neg hbig] at h
          rw [usizeMax_div_two] at hbig
          push_neg at hbig
          have hmod : (s.ref_count + 1) % 2 ^ 64 = s.ref_count + 1 :=
            Nat.mod_eq_of_lt (by omega)
          cases h
          exact ⟨by simp [hmod]; omega, by omega, by omega⟩
      | dropHandle =>
        simp only [arcStep, Arc.dropHandle] at h
        by_cases hone : s.ref_count = 1
        · simp only [if_pos hone] at h
          cases h
          simp only [arcInv]
          omega
        · simp only [if_neg hone] at h
          have hmod : (s.ref_count + 2 ^ 64 - 1) % 2 ^ 64 = s.ref_count - 1 := by
            have : s.ref_count + 2 ^ 64 - 1 = (s.ref_count - 1) + 1 * 2 ^ 64 := by omega
            rw [this, Nat.add_mul_mod_self_right]
            exact Nat.mod_eq_of_lt (by omega)
          cases h
          exact ⟨by simp [hmod]; omega, by omega, by omega⟩

lemma arcRun_inv :
    ∀ (ops : List HOp) (st st' : Option (ArcData T) × Nat),
      arcInv st → arcRun st ops = .ok st' → arcInv st' := by
  intro ops
  induction ops with
  | nil =>
    intro st st' hinv h
    simp [arcRun] at h
    rw [← h]
    exact hinv
  | cons op ops ih =>
    intro st st' hinv h
    simp only [arcRun] at h
    cases hstep : arcStep st op with
    | error e => rw [hstep] at h; simp at h
    | ok st1 =>
      rw [hstep] at h
      simp only at h
      exact ih st1 st' (arcStep_inv hinv hstep) h

/-! ### Spin lock

Embeds SpinLock and Guard from src/spin_lock/src/main.rs: a locked flag
plus the protected value. One iteration of the swap loop of lock() is an
attempt; it succeeds exactly when it observed the flag clear. The guard's
destructor is the only release path — the source has no unlock method.
-/

/-- State of a SpinLock: the locked flag and the protected value. -/
structure LockState (T : Type) where
  locked : Bool
  value : T
deriving DecidableEq, Repr

/-- SpinLock::new — unlocked, holding the value. -/
def SpinLock.new (v : T) : LockState T :=
  { locked := false, value := v }

/-- One iteration of the swap loop in SpinLock::lock — swaps the flag to
true; the attempt acquires the lock exactly when the flag was observed
false, otherwise the loop spins again. -/
def SpinLock.lockAttempt (s : LockState T) : Option (LockState T) :=
  if s.locked then none else some { s with locked := true }

/-- Drop for Guard — stores false into the locked flag. -/
def Guard.drop (s : LockState T) : LockState T :=
  { s with locked := false }

/-- A sequence of n rounds, each a successful lock() immediately followed
by dropping the guard; none when some lock attempt found the flag already
set. -/
def lockUnlockSeq : LockState T → Nat → Option (LockState T)
  | s, 0 => some s
  | s, n + 1 =>
    match SpinLock.lockAttempt s with
    | some s' => lockUnlockSeq (Guard.drop s') n
    | none => none

/-! ### Claim theorems -/

/-- Claim C1, evaluated at the failing input: the claim says receive()
re-checks the ready flag after waking and never moves the message out on a
spurious or early wake while ready is still false. The code parks inside an
if, not a loop: calling receive() on a freshly split channel (ready false,
slot uninitialized) and letting the park return spuriously (the channel
still in the same not-ready state) makes the code execute assume_init_read
on the uninitialized slot — the flag is never re-checked and was never
observed true. -/
theorem claim_C1_spurious_wake_reads_uninit :
    ReceiverWithBorrows.receive (OneShotChannelWithBorrows.new Nat)
        (OneShotChannelWithBorrows.new Nat) =
      (RecvOut.uninitRead, OneShotChannelWithBorrows.new Nat) := rfl

/-- Claim C2: is_ready() returns true iff a send has completed and no
receive has consumed the message: proved for every successful sequential
run of the panic variant, for every capability-disciplined run of the Arc
variant, and — receive consuming the receiver makes later is_ready calls
impossible in the other variants — at every observable state of the
borrow-scoped variant (after split, after send); in particular a fresh
channel reports false. -/
theorem claim_C2_is_ready_iff_sent_unconsumed (T : Type) :
    (∀ (ops : List (POp T)) (s : PState T),
        prun (OneShotChannelWithPanic.new T) ops = .ok s →
        (OneShotChannelWithPanic.is_ready s = true ↔
          sendCount ops = 1 ∧ recvCount ops = 0)) ∧
    (∀ (ops : List (POp T)) (s : AState T),
        sendCount ops ≤ 1 → recvCount ops ≤ 1 →
        arun (OneShotChannelWithArc.channel T) ops = .ok s →
        (ReceiverWithArc.is_ready s = true ↔
          sendCount ops = 1 ∧ recvCount ops = 0)) ∧
    (∀ s : BState T,
        ReceiverWithBorrows.is_ready (OneShotChannelWithBorrows.split s).2 = false) ∧
    (∀ (s : BState T) (m : T),
        ReceiverWithBorrows.is_ready (SenderWithBorrows.send s m) = true) ∧
    OneShotChannelWithPanic.is_ready (OneShotChannelWithPanic.new T) = false := by
  refine ⟨?_, ?_, fun s => rfl, fun s m => rfl, rfl⟩
  · intro ops s h
    rcases prun_fresh ops s h with ⟨hs, hr, rfl⟩ | ⟨m, hf, hs, ⟨hr, rfl⟩ | ⟨hr, rfl⟩⟩
    · simp [OneShotChannelWithPanic.is_ready, OneShotChannelWithPanic.new, hs, hr]
    · simp [OneShotChannelWithPanic.is_ready, hs, hr]
    · simp [OneShotChannelWithPanic.is_ready, hs, hr]
  · intro ops s h1 h2 h
    rcases arun_fresh ops s h1 h2 h with ⟨hs, hr, rfl⟩ | ⟨m, hf, hs, ⟨hr, rfl⟩ | ⟨hr, rfl⟩⟩
    · simp [ReceiverWithArc.is_ready, OneShotChannelWithArc.channel, hs, hr]
    · simp [ReceiverWithArc.is_ready, hs, hr]
    · simp [ReceiverWithArc.is_ready, hs, hr]

/-- Witness for claim C2: after the single run step send 0, the panic
variant's is_ready reads true, with one send and no receive in the run. -/
theorem claim_C2_witness :
    OneShotChannelWithPanic.is_ready
        ({ in_use := true, ready := true, slot := some 0 } : PState Nat) = true ↔
      sendCount [POp.send (0 : Nat)] = 1 ∧ recvCount [POp.send (0 : Nat)] = 0 :=
  (claim_C2_is_ready_iff_sent_unconsumed Nat).1 [POp.send 0]
    { in_use := true, ready := true, slot := some 0 } rfl

/-- Claim C3: receive() on the panic variant swaps ready to false and
returns the message when ready was true, panics with no message available
when ready is false, and panics again on a second call; on any reachable
ready state the returned message is the one the single send wrote. The
same swap-and-check holds for ReceiverWithArc::receive. -/
theorem claim_C3_receive_swap_check (T : Type) :
    (∀ (s : PState T) (m : T), s.ready = true → s.slot = some m →
        OneShotChannelWithPanic.receive s = .ok (m, { s with ready := false })) ∧
    (∀ s : PState T, s.ready = false →
        OneShotChannelWithPanic.receive s = .error .noMessageAvailable) ∧
    (∀ (s : PState T) (m : T) (s' : PState T),
        OneShotChannelWithPanic.receive s = .ok (m, s') →
        OneShotChannelWithPanic.receive s' = .error .noMessageAvailable) ∧
    (∀ (ops : List (POp T)) (s : PState T),
        prun (OneShotChannelWithPanic.new T) ops = .ok s → s.ready = true →
        ∃ m, firstSent ops = some m ∧
          OneShotChannelWithPanic.receive s = .ok (m, { s with ready := false })) ∧
    (∀ (s : AState T) (m : T), s.ready = true → s.slot = some m →
        ReceiverWithArc.receive s = .ok (m, { s with ready := false })) ∧
    (∀ s : AState T, s.ready = false →
        ReceiverWithArc.receive s = .error .noMessageAvailable) := by
  refine ⟨?_, ?_, ?_, ?_, ?_, ?_⟩
  · intro s m h1 h2
    simp [OneShotChannelWithPanic.receive, h1, h2]
  · intro s h1
    simp [OneShotChannelWithPanic.receive, h1]
  · intro s m s' h
    rcases s with ⟨u, r, sl⟩
    cases r with
    | false => simp [OneShotChannelWithPanic.receive] at h
    | true =>
      cases sl with
      | none => simp [OneShotChannelWithPanic.receive] at h
      | some m' =>
        simp [OneShotChannelWithPanic.receive] at h
        rw [← h.2]
        simp [OneShotChannelWithPanic.receive]
  · intro ops s h hr
    rcases prun_fresh ops s h with ⟨hs, hc, rfl⟩ | ⟨m, hf, hs, ⟨hc, rfl⟩ | ⟨hc, rfl⟩⟩
    · simp [OneShotChannelWithPanic.new] at hr
    · exact ⟨m, hf, by simp [OneShotChannelWithPanic.receive]⟩
    · simp at hr
  · intro s m h1 h2
    simp [ReceiverWithArc.receive, h1, h2]
  · intro s h1
    simp [ReceiverWithArc.receive, h1]

/-- Witness for claim C3: on the ready state holding message 7, receive
moves 7 out and clears the ready flag. -/
theorem claim_C3_witness :
    OneShotChannelWithPanic.receive
        ({ in_use := true, ready := true, slot := some 7 } : PState Nat) =
      .ok (7, { in_use := true, ready := false, slot := some 7 }) :=
  (claim_C3_receive_swap_check Nat).1
    { in_use := true, ready := true, slot := some 7 } 7 rfl rfl

/-- Claim C4: send() on the panic variant test-and-sets in_use: if it was
already set the call panics with the used-more-than-once violation;
otherwise the message is written into the slot and ready is set. On every
reachable state, in_use is set exactly when a send has occurred. -/
theorem claim_C4_send_test_and_set (T : Type) :
    (∀ (s : PState T) (m : T), s.in_use = true →
        OneShotChannelWithPanic.send s m = .error .usedMoreThanOnce) ∧
    (∀ (s : PState T) (m : T), s.in_use = false →
        OneShotChannelWithPanic.send s m =
          .ok { in_use := true, ready := true, slot := some m }) ∧
    (∀ (ops : List (POp T)) (s : PState T),
        prun (OneShotChannelWithPanic.new T) ops = .ok s →
        (s.in_use = true ↔ 1 ≤ sendCount ops)) := by
  refine ⟨?_, ?_, ?_⟩
  · intro s m h
    simp [OneShotChannelWithPanic.send, h]
  · intro s m h
    simp [OneShotChannelWithPanic.send, h]
  · intro ops s h
    rcases prun_fresh ops s h with ⟨hs, hc, rfl⟩ | ⟨m, hf, hs, ⟨hc, rfl⟩ | ⟨hc, rfl⟩⟩
    · simp [OneShotChannelWithPanic.new, hs]
    · simp [hs]
    · simp [hs]

/-- Witness for claim C4: a second send on the state left by a first send
panics with the used-more-than-once violation. -/
theorem claim_C4_witness :
    OneShotChannelWithPanic.send
        ({ in_use := true, ready := true, slot := some 0 } : PState Nat) 1 =
      .error .usedMoreThanOnce :=
  (claim_C4_send_test_and_set Nat).1
    { in_use := true, ready := true, slot := some 0 } 1 rfl

/-- Claim C5: Arc::get_mut returns the mutable view exactly when the
reference count reads 1, and on every handle-level history from a fresh
Arc the count equals the number of live handles, so the view is returned
iff exactly one handle exists. -/
theorem claim_C5_get_mut_iff_unique (T : Type) :
    (∀ s : ArcData T, s.ref_count = 1 → Arc.get_mut s = some s.data) ∧
    (∀ s : ArcData T, s.ref_count ≠ 1 → Arc.get_mut s = none) ∧
    (∀ (v : T) (ops : List HOp) (s : ArcData T) (handles : Nat),
        arcRun (some (Arc.new v), 1) ops = .ok (some s, handles) →
        ((Arc.get_mut s).isSome = true ↔ handles = 1)) := by
  refine ⟨?_, ?_, ?_⟩
  · intro s h
    simp [Arc.get_mut, h]
  · intro s h
    simp [Arc.get_mut, h]
  · intro v ops s handles h
    have hinv : arcInv ((some s : Option (ArcData T)), handles) :=
      arcRun_inv ops (some (Arc.new v), 1) (some s, handles)
        ⟨rfl, le_refl 1, by norm_num⟩ h
    obtain ⟨hc, h1, h2⟩ := hinv
    constructor
    · intro hsome
      by_cases he : s.ref_count = 1
      · omega
      · simp [Arc.get_mut, he] at hsome
    · intro he
      simp [Arc.get_mut, hc, he]

/-- Witness for claim C5: after cloning a fresh Arc and dropping one of the
two handles, one handle is left and get_mut returns the view. -/
theorem claim_C5_witness :
    (Arc.get_mut ({ ref_count := 1, data := 5 } : ArcData Nat)).isSome = true ↔
      (1 : Nat) = 1 :=
  (claim_C5_get_mut_iff_unique Nat).2.2 5 [HOp.clone, HOp.dropHandle]
    { ref_count := 1, data := 5 } 1 rfl

/-- Claim C6: Arc::clone increments the reference count by one on the same
block (also at the handle level, where the number of live handles grows by
one), and aborts the whole process when the value before the increment
exceeds usize::MAX / 2, so the count can never wrap around. -/
theorem claim_C6_clone_increments_or_aborts (T : Type) :
    (∀ s : ArcData T, s.ref_count ≤ usizeMax / 2 →
        Arc.clone s = .ok { s with ref_count := s.ref_count + 1 }) ∧
    (∀ s : ArcData T, usizeMax / 2 < s.ref_count →
        Arc.clone s = .error .aborted) ∧
    (∀ (s : ArcData T) (h : Nat), s.ref_count ≤ usizeMax / 2 →
        arcStep (some s, h + 1) HOp.clone =
          .ok (some { s with ref_count := s.ref_count + 1 }, h + 2)) := by
  have key : ∀ s : ArcData T, s.ref_count ≤ usizeMax / 2 →
      Arc.clone s = .ok { s with ref_count := s.ref_count + 1 } := by
    intro s h
    have hnb : ¬ usizeMax / 2 < s.ref_count := not_lt.mpr h
    have hmod : (s.ref_count + 1) % 2 ^ 64 = s.ref_count + 1 := by
      rw [usizeMax_div_two] at h
      exact Nat.mod_eq_of_lt (by omega)
    simp only [Arc.clone, gt_iff_lt, if_neg hnb, hmod]
  refine ⟨key, ?_, ?_⟩
  · intro s h
    simp [Arc.clone, h]
  · intro s h hle
    simp [arcStep, key s hle]

/-- Witness for claim C6: cloning an Arc whose count reads 1 yields count
2, and cloning a block whose count already exceeds usize::MAX / 2 aborts. -/
theorem claim_C6_witness :
    Arc.clone ({ ref_count := 1, data := 3 } : ArcData Nat) =
      .ok { ref_count := 2, data := 3 } ∧
    Arc.clone ({ ref_count := 2 ^ 63, data := 3 } : ArcData Nat) =
      .error .aborted :=
  ⟨(claim_C6_clone_increments_or_aborts Nat).1 { ref_count := 1, data := 3 }
      (by norm_num [usizeMax]),
    (claim_C6_clone_increments_or_aborts Nat).2.1 { ref_count := 2 ^ 63, data := 3 }
      (by norm_num [usizeMax])⟩

/-- Claim C7: on every reachable state of the panic variant and on every
capability-disciplined reachable state of the Arc variant, the destructor
finalizes the single sent message exactly once when ready is still true,
and finalizes nothing when ready is false. -/
theorem claim_C7_drop_finalizes_exactly_once (T : Type) :
    (∀ (ops : List (POp T)) (s : PState T),
        prun (OneShotChannelWithPanic.new T) ops = .ok s →
        (s.ready = true → ∃ m, firstSent ops = some m ∧
            OneShotChannelWithPanic.dropFinalized s = [m]) ∧
        (s.ready = false → OneShotChannelWithPanic.dropFinalized s = [])) ∧
    (∀ (ops : List (POp T)) (s : AState T),
        sendCount ops ≤ 1 → recvCount ops ≤ 1 →
        arun (OneShotChannelWithArc.channel T) ops = .ok s →
        (s.ready = true → ∃ m, firstSent ops = some m ∧
            OneShotChannelWithArc.dropFinalized s = [m]) ∧
        (s.ready = false → OneShotChannelWithArc.dropFinalized s = [])) := by
  constructor
  · intro ops s h
    rcases prun_fresh ops s h with ⟨hs, hc, rfl⟩ | ⟨m, hf, hs, ⟨hc, rfl⟩ | ⟨hc, rfl⟩⟩
    · exact ⟨by simp [OneShotChannelWithPanic.new], fun _ => rfl⟩
    · exact ⟨fun _ => ⟨m, hf, rfl⟩, by simp⟩
    · exact ⟨by simp, fun _ => rfl⟩
  · intro ops s h1 h2 h
    rcases arun_fresh ops s h1 h2 h with ⟨hs, hc, rfl⟩ | ⟨m, hf, hs, ⟨hc, rfl⟩ | ⟨hc, rfl⟩⟩
    · exact ⟨by simp [OneShotChannelWithArc.channel], fun _ => rfl⟩
    · exact ⟨fun _ => ⟨m, hf, rfl⟩, by simp⟩
    · exact ⟨by simp, fun _ => rfl⟩

/-- Witness for claim C7: destroying the panic-variant channel right after
send 4 finalizes exactly the message 4. -/
theorem claim_C7_witness :
    OneShotChannelWithPanic.dropFinalized
        ({ in_use := true, ready := true, slot := some 4 } : PState Nat) = [4] := by
  have h := ((claim_C7_drop_finalizes_exactly_once Nat).1 [POp.send 4]
    { in_use := true, ready := true, slot := some 4 } rfl).1 rfl
  obtain ⟨m, hm, hd⟩ := h
  cases hm
  exact hd

/-- Claim C8: the guard's destructor stores false into the locked flag from
any state, so a successful lock attempt followed by the guard's drop leaves
the lock free, and any number of lock()/guard-drop rounds from an unlocked
lock succeeds and ends with the lock free (the drop is the only release
path: the source has no unlock method). -/
theorem claim_C8_guard_drop_releases (T : Type) :
    (∀ s : LockState T, (Guard.drop s).locked = false) ∧
    (∀ (s s' : LockState T), SpinLock.lockAttempt s = some s' →
        (Guard.drop s').locked = false ∧ (Guard.drop s').value = s.value) ∧
    (∀ (s : LockState T) (n : Nat), s.locked = false →
        ∃ s', lockUnlockSeq s n = some s' ∧ s'.locked = false ∧
          s'.value = s.value) := by
  refine ⟨fun s => rfl, ?_, ?_⟩
  · intro s s' h
    rcases s with ⟨l, v⟩
    cases l with
    | true => simp [SpinLock.lockAttempt] at h
    | false =>
      simp [SpinLock.lockAttempt] at h
      rw [← h]
      exact ⟨rfl, rfl⟩
  · intro s n
    induction n generalizing s with
    | zero =>
      intro h
      exact ⟨s, rfl, h, rfl⟩
    | succ n ih =>
      intro h
      rcases s with ⟨l, v⟩
      cases l with
      | true => simp at h
      | false =>
        obtain ⟨s', hrun, hl, hv⟩ := ih { locked := false, value := v } rfl
        exact ⟨s', hrun, hl, hv⟩

/-- Witness for claim C8: three lock()/guard-drop rounds on a fresh lock
holding 9 succeed and leave the lock free with its value intact. -/
theorem claim_C8_witness :
    ∃ s', lockUnlockSeq (SpinLock.new 9) 3 = some s' ∧ s'.locked = false ∧
      s'.value = 9 :=
  (claim_C8_guard_drop_releases Nat).2.2 (SpinLock.new 9) 3 rfl

/-- Claim C9: split() overwrites the borrowed channel with a fresh one, so
immediately after split the ready flag is false and the slot holds no
message, whatever the prior state was. -/
theorem claim_C9_split_resets (T : Type) :
    ∀ s : BState T, ((OneShotChannelWithBorrows.split s).2).ready = false ∧
      ((OneShotChannelWithBorrows.split s).2).slot = none :=
  fun _ => ⟨rfl, rfl⟩

/-- Claim C10: receive() never changes the in_use flag, and on every
reachable state of the panic variant in which a send has occurred — in
particular after the message has been consumed — in_use is still set and
every further send panics with the used-more-than-once violation, so the
instance can never be reused. -/
theorem claim_C10_in_use_never_cleared (T : Type) :
    (∀ (s : PState T) (m : T) (s' : PState T),
        OneShotChannelWithPanic.receive s = .ok (m, s') → s'.in_use = s.in_use) ∧
    (∀ (ops : List (POp T)) (s : PState T),
        prun (OneShotChannelWithPanic.new T) ops = .ok s →
        1 ≤ sendCount ops →
        s.in_use = true ∧
          ∀ m : T, OneShotChannelWithPanic.send s m = .error .usedMoreThanOnce) := by
  constructor
  · intro s m s' h
    rcases s with ⟨u, r, sl⟩
    cases r with
    | false => simp [OneShotChannelWithPanic.receive] at h
    | true =>
      cases sl with
      | none => simp [OneShotChannelWithPanic.receive] at h
      | some m' =>
        simp [OneShotChannelWithPanic.receive] at h
        rw [← h.2]
  · intro ops s h hsc
    rcases prun_fresh ops s h with ⟨hs, hc, rfl⟩ | ⟨m, hf, hs, ⟨hc, rfl⟩ | ⟨hc, rfl⟩⟩
    · omega
    · exact ⟨rfl, fun m' => by simp [OneShotChannelWithPanic.send]⟩
    · exact ⟨rfl, fun m' => by simp [OneShotChannelWithPanic.send]⟩

/-- Witness for claim C10: after send 0 followed by a successful receive,
the channel state still has in_use set and send 1 panics. -/
theorem claim_C10_witness :
    OneShotChannelWithPanic.send
        ({ in_use := true, ready := false, slot := some 0 } : PState Nat) 1 =
      .error .usedMoreThanOnce :=
  ((claim_C10_in_use_never_cleared Nat).2 [POp.send 0, POp.receive]
    { in_use := true, ready := false, slot := some 0 } rfl (by decide)).2 1

end AtomicsAndLocks
